import Mathlib

/-
Shallow embedding of the search-query construction and result-pagination
engine of src/arxiv.py (PaperBot repository).

Conventions of the embedding:
- Python strings are Lean String values; the substring test (x in y) is
  embedded as an executable scan over character lists.
- Python unbounded integers are Lean Int.
- Functions that can raise are embedded as Except String.
- The regex character class [a-zA-Z] and the class \d are modeled over
  ASCII characters (Char.isAlpha, Char.isDigit), matching the inputs the
  program actually handles.
-/

namespace Arxiv

/-- Entry point string, _base_url in the source. -/
def base_url : String := "http://export.arxiv.org/api/query?"

/-- Characters of the regex character class [a-zA-Z.-]. -/
def isCatChar (c : Char) : Bool := c.isAlpha || c == '.' || c == '-'

/-- Embedding of _is_category: re.search of the anchored pattern
^[a-zA-Z.-]+\.?[a-zA-Z.-]+ succeeds on entry exactly when the maximal
leading run of characters from the class [a-zA-Z.-] has length at least 2
(the literal dot of the pattern is itself a member of the class, so the
greedy leftmost match group is that whole leading run), and the source
additionally requires the match group length to exceed 4. -/
def is_category (entry : String) : Bool :=
  let n := (entry.data.takeWhile isCatChar).length
  decide (2 ≤ n) && decide (4 < n)

/-- Scan for a digit, a literal dot, then a digit at consecutive positions. -/
def hasDigitDotDigit : List Char → Bool
  | a :: b :: c :: rest =>
    (a.isDigit && b == '.' && c.isDigit) || hasDigitDotDigit (b :: c :: rest)
  | _ => false

/-- Embedding of _is_paper_id: re.search of the unanchored pattern
\d+\.\d+ succeeds on entry exactly when some position of the string holds
a digit followed by a dot followed by a digit (any longer match of the
pattern contains such a triple at the boundary of its two digit runs). -/
def is_paper_id (entry : String) : Bool :=
  hasDigitDotDigit entry.data

/-- Embedding of the str.join method of the source (sep.join(parts)). -/
def pyJoin (sep : String) : List String → String
  | [] => ""
  | [x] => x
  | x :: y :: xs => x ++ sep ++ pyJoin sep (y :: xs)

/-- Embedding of the str.split method with a single-space separator, as in
subject.split of the source: every space is a cut point and empty pieces
are kept, so the empty string splits into one empty piece. -/
def splitSpace : List Char → List (List Char)
  | [] => [[]]
  | c :: rest =>
    match splitSpace rest with
    | [] => [[]]
    | w :: ws => if c == ' ' then [] :: w :: ws else (c :: w) :: ws

/-- String-level wrapper of splitSpace. -/
def pySplitSpace (s : String) : List String :=
  (splitSpace s.data).map String.mk

/-- SearchSpec of the data model: the two fields of the Search class. -/
structure Search where
  search_query : String
  id_list : String
  deriving DecidableEq

/-- Input of the Search constructor: a plain string or a list of tokens. -/
inductive SearchInput where
  | str : String → SearchInput
  | list : List String → SearchInput
  deriving DecidableEq

/-- Embedding of the Search constructor. The source raises RuntimeError
with message starting with the text kept here (the repr of the input,
appended by the format call of the source, is omitted from the model). -/
def Search.init : SearchInput → Except String Search
  | .list l =>
    if l.all is_category then
      .ok ⟨pyJoin "+OR+" (l.map (fun c => "cat:" ++ c)), ""⟩
    else if l.all is_paper_id then
      .ok ⟨"", pyJoin "," l⟩
    else
      .error "Unrecognized list input"
  | .str s =>
    if is_category s then .ok ⟨"cat:" ++ s, ""⟩
    else if is_paper_id s then .ok ⟨"", s⟩
    else .ok ⟨s, ""⟩

/-- Query string built by Search.FromSubject before classification. -/
def subjectQuery (subject : String) : String :=
  pyJoin "+AND+" ((pySplitSpace subject).map (fun p => "all:" ++ p))

/-- Embedding of the classmethod FromSubject of the source. -/
def Search.FromSubject (subject : String) : Except String Search :=
  Search.init (.str (subjectQuery subject))

/-- Embedding of the classmethod FromPaper of the source. -/
def Search.FromPaper (title : String) (author : Option String) : Except String Search :=
  Search.init (.str ("ti:" ++ title ++
    (match author with
     | some a => "+AND+au:" ++ a
     | none => "")))

/-- Allowed sort_by values checked by Finalize in the source. -/
def allowedSortBy : List String := ["relevance", "lastUpdatedDate", "submittedDate"]

/-- Allowed sort_order values checked by Finalize in the source. -/
def allowedSortOrder : List String := ["ascending", "descending"]

/-- Embedding of Search.Finalize. The source defaults are start 0,
max_results 25, sort_by submittedDate, sort_order descending; here all
arguments are passed explicitly. -/
def Search.Finalize (self : Search) (start max_results : Int)
    (sort_by sort_order : String) : Except String String :=
  if sort_by ∉ allowedSortBy then
    .error "Unknown sorting type"
  else if sort_order ∉ allowedSortOrder then
    .error "Unknown ordering"
  else
    .ok (base_url ++ "search_query=" ++ self.search_query ++
      "&id_list=" ++ self.id_list ++
      "&start=" ++ toString start ++
      "&max_results=" ++ toString max_results ++
      "&sortBy=" ++ sort_by ++
      "&sortOrder=" ++ sort_order)

/-- Weekday of a day given by its proleptic Gregorian ordinal, as the
source datetime library computes it: ordinal 1 is a Monday and the
weekday method returns 0 for Monday through 6 for Sunday. -/
def weekday (ordinal : Int) : Int := (ordinal + 6) % 7

/-- Target submitted date computed at the top of _query_daily_paper:
three days back on a Monday, otherwise one day back. Dates are modeled
by their ordinals, so subtracting a timedelta of k days is subtracting k. -/
def targetSubmittedDate (today : Int) : Int :=
  if weekday today = 0 then today - 3 else today - 1

/-- Feed entry as consumed by the daily loop: only the date field is
inspected there; the title stands for the rest of the payload. -/
structure FeedEntry where
  date : String
  title : String
  deriving DecidableEq

/-- Result of one feedparser call: HTTP-like status and parsed entries.
A missing status in the source compares unequal to 200, so it is modeled
by any status value other than 200. -/
structure FetchResult where
  status : Int
  entries : List FeedEntry
  deriving DecidableEq

/-- Check that the second list occurs at the head of the first. -/
def listStartsWith : List Char → List Char → Bool
  | _, [] => true
  | [], _ :: _ => false
  | a :: as, b :: bs => a == b && listStartsWith as bs

/-- Check that sub occurs as a contiguous run somewhere in the list. -/
def listHasSub (sub : List Char) : List Char → Bool
  | [] => listStartsWith [] sub
  | c :: t => listStartsWith (c :: t) sub || listHasSub sub t

/-- Embedding of the substring containment test of the source
(needle in hay). -/
def strContainsSub (hay needle : String) : Bool :=
  listHasSub needle.data hay.data

/-- Embedding of the per-page entry loop of _query_daily_paper: keep each
entry whose date string contains the target date string; at the first
entry whose date does not, stop (the source sets n_left to 0 and breaks).
Returns the kept entries and whether the date boundary was crossed. -/
def scanPage (target : String) : List FeedEntry → List FeedEntry × Bool
  | [] => ([], false)
  | e :: rest =>
    if strContainsSub e.date target then
      (e :: (scanPage target rest).1, (scanPage target rest).2)
    else
      ([], true)

/-- Embedding of the while loop of _query_daily_paper. The fetch argument
stands for the composition of Search.Finalize and feedparser.parse: it
maps the start offset and the per-request max_results to the parsed
result. The sleep between iterations has no effect on the returned value
and is not modeled. The loop terminates on n_left exhausted, a bad
status, or an empty page; otherwise it recurses with the counters
advanced by the number of entries actually returned, with n_left forced
to 0 when the date boundary was crossed. -/
def queryLoop (fetch : Int → Int → FetchResult) (res_per_iter : Int)
    (target : String) (articles : List FeedEntry)
    (n_left n_start : Int) : List FeedEntry :=
  if 0 < n_left then
    if (fetch n_start res_per_iter).status = 200 then
      if (fetch n_start res_per_iter).entries.length = 0 then
        articles
      else
        queryLoop fetch res_per_iter target
          (articles ++ (scanPage target (fetch n_start res_per_iter).entries).1)
          (if (scanPage target (fetch n_start res_per_iter).entries).2 then 0
           else n_left - (fetch n_start res_per_iter).entries.length)
          (n_start + (fetch n_start res_per_iter).entries.length)
    else
      articles
  else
    articles
termination_by n_left.toNat
decreasing_by
  rename_i h1 _ h3
  split
  · simp only [Int.toNat_zero]
    omega
  · have hlen : (fetch n_start res_per_iter).entries.length ≠ 0 := h3
    omega

/-- Embedding of _query_daily_paper, with the fetch collaborator and the
already-formatted target date string passed in. -/
def queryDailyPaper (fetch : Int → Int → FetchResult)
    (start max_results res_per_iter : Int) (target : String) : List FeedEntry :=
  queryLoop fetch res_per_iter target [] max_results start

/-- Concrete entry whose date string contains the target date
2021-03-01, used by the concrete pagination scenarios. -/
def sampleEntry : FeedEntry := ⟨"2021-03-01T09:00:00Z", "paper"⟩

/-- Concrete fetch collaborator for the two-page scenario of the spec:
the page at offset 0 returns 100 entries, every later page is empty. -/
def twoPageFetch : Int → Int → FetchResult := fun s _ =>
  if s = 0 then ⟨200, List.replicate 100 sampleEntry⟩ else ⟨200, []⟩

/-- Concrete fetch collaborator that always reports a failing status
while still carrying entries, for the soft-failure scenario. -/
def failingFetch : Int → Int → FetchResult := fun _ _ =>
  ⟨404, [sampleEntry]⟩

/-! Helper lemmas about the pagination loop and the page scan. -/

/-- Loop exit on an exhausted budget: n_left at most 0 returns the
accumulated articles unchanged. -/
theorem queryLoop_nonpos (fetch : Int → Int → FetchResult) (rpi : Int) (t : String)
    (arts : List FeedEntry) (n_left n_start : Int) (h : n_left ≤ 0) :
    queryLoop fetch rpi t arts n_left n_start = arts := by
  unfold queryLoop
  rw [if_neg (by omega)]

/-- Loop exit on a non-success status. -/
theorem queryLoop_badStatus (fetch : Int → Int → FetchResult) (rpi : Int) (t : String)
    (arts : List FeedEntry) (n_left n_start : Int) (h1 : 0 < n_left)
    (h2 : (fetch n_start rpi).status ≠ 200) :
    queryLoop fetch rpi t arts n_left n_start = arts := by
  unfold queryLoop
  rw [if_pos h1, if_neg h2]

/-- Loop exit on an empty page. -/
theorem queryLoop_emptyPage (fetch : Int → Int → FetchResult) (rpi : Int) (t : String)
    (arts : List FeedEntry) (n_left n_start : Int) (h1 : 0 < n_left)
    (h2 : (fetch n_start rpi).status = 200)
    (h3 : (fetch n_start rpi).entries = []) :
    queryLoop fetch rpi t arts n_left n_start = arts := by
  unfold queryLoop
  rw [if_pos h1, if_pos h2, if_pos (by simp [h3])]

/-- Loop step on a successful nonempty page: the scanned matches are
appended and the counters advance by the number of entries returned. -/
theorem queryLoop_stepPage (fetch : Int → Int → FetchResult) (rpi : Int) (t : String)
    (arts : List FeedEntry) (n_left n_start : Int) (h1 : 0 < n_left)
    (h2 : (fetch n_start rpi).status = 200)
    (h3 : (fetch n_start rpi).entries ≠ []) :
    queryLoop fetch rpi t arts n_left n_start =
      queryLoop fetch rpi t
        (arts ++ (scanPage t (fetch n_start rpi).entries).1)
        (if (scanPage t (fetch n_start rpi).entries).2 then 0
         else n_left - (fetch n_start rpi).entries.length)
        (n_start + (fetch n_start rpi).entries.length) := by
  conv_lhs => unfold queryLoop
  rw [if_pos h1, if_pos h2, if_neg (by simp [h3])]

/-- Page scan on a page whose entries all match the target date: every
entry is kept and the boundary is not crossed. -/
theorem scanPage_all (target : String) (l : List FeedEntry)
    (h : ∀ x ∈ l, strContainsSub x.date target = true) :
    scanPage target l = (l, false) := by
  induction l with
  | nil => rfl
  | cons a as ih =>
    have ha : strContainsSub a.date target = true := h a (by simp)
    have ih2 := ih (fun x hx => h x (by simp [hx]))
    simp [scanPage, ha, ih2]

/-- Page scan on a page with a matching prefix followed by a first
non-matching entry: exactly the prefix is kept, the boundary flag is set,
and the entries after the first mismatch do not influence the result. -/
theorem scanPage_crossed (target : String) (pre : List FeedEntry) (e : FeedEntry)
    (suf : List FeedEntry)
    (hpre : ∀ x ∈ pre, strContainsSub x.date target = true)
    (he : strContainsSub e.date target = false) :
    scanPage target (pre ++ e :: suf) = (pre, true) := by
  induction pre with
  | nil => simp [scanPage, he]
  | cons a as ih =>
    have ha : strContainsSub a.date target = true := hpre a (by simp)
    have ih2 := ih (fun x hx => hpre x (by simp [hx]))
    simp [scanPage, ha, ih2]

/-- Split of a character list never produces the empty list of pieces. -/
theorem splitSpace_ne_nil (l : List Char) : splitSpace l ≠ [] := by
  cases l with
  | nil => simp [splitSpace]
  | cons c rest =>
    simp only [splitSpace]
    split
    · simp
    · split <;> simp

/-- Query string built by FromSubject always starts with the four
characters all and colon. -/
theorem subjectQuery_shape (subject : String) :
    ∃ t : String, subjectQuery subject = "all:" ++ t := by
  unfold subjectQuery pySplitSpace
  cases h : splitSpace subject.data with
  | nil => exact absurd h (splitSpace_ne_nil _)
  | cons w ws =>
    cases ws with
    | nil => exact ⟨String.mk w, by simp [pyJoin]⟩
    | cons w2 ws2 =>
      refine ⟨String.mk w ++ "+AND+" ++
        pyJoin "+AND+" (List.map (fun p => "all:" ++ p) (List.map String.mk (w2 :: ws2))), ?_⟩
      simp [pyJoin, String.append_assoc]

/-- Strings starting with all and a colon never pass the category check:
the leading run of category characters is the three letters all, which is
not longer than 4. -/
theorem is_category_all_colon (t : String) : is_category ("all:" ++ t) = false := by
  have hdata : ("all:" ++ t).data = 'a' :: 'l' :: 'l' :: ':' :: t.data := by
    rw [String.data_append]
    rfl
  unfold is_category
  rw [hdata]
  rw [List.takeWhile_cons_of_pos (by decide), List.takeWhile_cons_of_pos (by decide),
      List.takeWhile_cons_of_pos (by decide), List.takeWhile_cons_of_neg (by decide)]
  simp

/-- Constructor success leaves at least one of the two spec fields
empty, whatever the input. -/
theorem search_init_exclusive (inp : SearchInput) (spec : Search)
    (h : Search.init inp = .ok spec) :
    spec.search_query = "" ∨ spec.id_list = "" := by
  cases inp with
  | list l =>
    simp only [Search.init] at h
    split at h
    · simp only [Except.ok.injEq] at h
      subst h
      right; rfl
    · split at h
      · simp only [Except.ok.injEq] at h
        subst h
        left; rfl
      · exact absurd h (by simp)
  | str s =>
    simp only [Search.init] at h
    split at h
    · simp only [Except.ok.injEq] at h
      subst h
      right; rfl
    · split at h
      · simp only [Except.ok.injEq] at h
        subst h
        left; rfl
      · simp only [Except.ok.injEq] at h
        subst h
        right; rfl

/-! Claim theorems. -/

/-- C3: for every date today, the computed target submission date equals
today minus 3 days when today is a Monday and today minus 1 day for every
other weekday. -/
theorem C3_target_date (today : Int) :
    (weekday today = 0 → targetSubmittedDate today = today - 3) ∧
    (weekday today ≠ 0 → targetSubmittedDate today = today - 1) := by
  constructor <;> intro h <;> simp [targetSubmittedDate, h]

/-- Witness for C3 at a concrete Monday ordinal (ordinal 8, a Monday) and
a concrete Tuesday ordinal (ordinal 9). -/
theorem C3_target_date_witness :
    (weekday 8 = 0 ∧ targetSubmittedDate 8 = 8 - 3) ∧
    (weekday 9 ≠ 0 ∧ targetSubmittedDate 9 = 9 - 1) :=
  ⟨⟨by decide, (C3_target_date 8).1 (by decide)⟩,
   ⟨by decide, (C3_target_date 9).2 (by decide)⟩⟩

/-- C10: a single string token that both passes the category check and
contains a digits-dot-digits substring is classified as a category: the
category branch of the constructor takes precedence over the paper
identifier branch. -/
theorem C10_category_precedence (s : String)
    (hc : is_category s = true) (hp : is_paper_id s = true) :
    Search.init (.str s) = .ok ⟨"cat:" ++ s, ""⟩ := by
  simp [Search.init, hc]

/-- Witness for C10 at a token matching both patterns. -/
theorem C10_category_precedence_witness :
    is_category "cs.CV2101.00001" = true ∧ is_paper_id "cs.CV2101.00001" = true ∧
    Search.init (.str "cs.CV2101.00001") = .ok ⟨"cat:" ++ "cs.CV2101.00001", ""⟩ :=
  ⟨by decide, by decide,
   C10_category_precedence "cs.CV2101.00001" (by decide) (by decide)⟩

/-- C4 counterexample: the list constructor fails on the singleton list
holding one free-text token, although the caller supplied only one token,
so failure is not restricted to lists of more than one token. -/
theorem C4_single_token_counterexample :
    Search.init (.list ["hi"]) = .error "Unrecognized list input" ∧
    (["hi"] : List String).length = 1 := by
  constructor
  · rfl
  · rfl

/-- C4 amended: the list form of the constructor fails with the
invalid-input error exactly when the tokens are a non-uniform mix, that
is, not all of them pass the category check and not all of them pass the
paper identifier check — regardless of how many tokens the caller
supplied; the raw-query fallback exists only for string input, never for
list input. -/
theorem C4_list_failure_iff (l : List String) :
    (∃ e, Search.init (.list l) = Except.error e) ↔
      (l.all is_category = false ∧ l.all is_paper_id = false) := by
  by_cases h1 : l.all is_category = true
  · simp [Search.init, h1]
  · by_cases h2 : l.all is_paper_id = true
    · simp [Search.init, h1, h2]
    · simp [Search.init, h1, h2]

/-- C5 counterexample: two category tokens are joined with the separator
+OR+ in the built query, which differs from the claimed separator
consisting of OR between spaces. -/
theorem C5_separator_counterexample :
    Search.init (.list ["cs.CV", "cs.AI"]) =
      .ok ⟨"cat:cs.CV+OR+cat:cs.AI", ""⟩ ∧
    ("cat:cs.CV+OR+cat:cs.AI" : String) ≠ "cat:cs.CV OR cat:cs.AI" := by
  constructor
  · rfl
  · decide

/-- C5 amended: for every list of two or more category tokens, the built
spec has search_query equal to the tokens prefixed with cat: and joined
with the separator +OR+ (the URL-encoded form of OR between spaces),
preserving the given order, and id_list empty. -/
theorem C5_or_join (l : List String) (hlen : 2 ≤ l.length)
    (hc : l.all is_category = true) :
    Search.init (.list l) =
      .ok ⟨pyJoin "+OR+" (l.map (fun c => "cat:" ++ c)), ""⟩ := by
  simp [Search.init, hc]

/-- Witness for C5 at the pair of category tokens named by the claim. -/
theorem C5_or_join_witness :
    2 ≤ (["cs.CV", "cs.AI"] : List String).length ∧
    Search.init (.list ["cs.CV", "cs.AI"]) =
      .ok ⟨"cat:cs.CV+OR+cat:cs.AI", ""⟩ :=
  ⟨by decide,
   (C5_or_join ["cs.CV", "cs.AI"] (by decide) (by decide)).trans (by rfl)⟩

/-- C6: Finalize fails exactly when sort_by is outside the three allowed
sorting values or sort_order is outside the two allowed orderings; on
success it returns the base url followed by all six fields, empty ones
included, in the order search_query, id_list, start, max_results, sortBy,
sortOrder, with sort_by and sort_order embedded literally. -/
theorem C6_finalize_spec (spec : Search) (start max_results : Int)
    (sort_by sort_order : String) :
    ((∃ e, spec.Finalize start max_results sort_by sort_order = Except.error e) ↔
      (sort_by ∉ allowedSortBy ∨ sort_order ∉ allowedSortOrder)) ∧
    (sort_by ∈ allowedSortBy → sort_order ∈ allowedSortOrder →
      spec.Finalize start max_results sort_by sort_order =
        .ok (base_url ++ "search_query=" ++ spec.search_query ++
          "&id_list=" ++ spec.id_list ++
          "&start=" ++ toString start ++
          "&max_results=" ++ toString max_results ++
          "&sortBy=" ++ sort_by ++
          "&sortOrder=" ++ sort_order)) := by
  by_cases h1 : sort_by ∈ allowedSortBy
  · by_cases h2 : sort_order ∈ allowedSortOrder
    · simp [Search.Finalize, h1, h2]
    · simp [Search.Finalize, h1, h2]
  · simp [Search.Finalize, h1]

/-- Witness for C6: the valid pair named by the claim succeeds with both
values embedded literally in the produced request string. -/
theorem C6_finalize_spec_witness :
    "relevance" ∈ allowedSortBy ∧ "ascending" ∈ allowedSortOrder ∧
    Search.Finalize ⟨"cat:cs.CV", ""⟩ 0 25 "relevance" "ascending" =
      .ok ("http://export.arxiv.org/api/query?search_query=cat:cs.CV&id_list=" ++
        "&start=0&max_results=25&sortBy=relevance&sortOrder=ascending") :=
  ⟨by decide, by decide,
   ((C6_finalize_spec ⟨"cat:cs.CV", ""⟩ 0 25 "relevance" "ascending").2
     (by decide) (by decide)).trans (by rfl)⟩

/-- C8: on every input on which the constructor succeeds, also through
the FromSubject and FromPaper helper constructors, the two fields of the
built spec are never both non-empty. -/
theorem C8_exclusive_population :
    (∀ (inp : SearchInput) (spec : Search), Search.init inp = .ok spec →
      ¬(spec.search_query ≠ "" ∧ spec.id_list ≠ "")) ∧
    (∀ (subject : String) (spec : Search), Search.FromSubject subject = .ok spec →
      ¬(spec.search_query ≠ "" ∧ spec.id_list ≠ "")) ∧
    (∀ (title : String) (author : Option String) (spec : Search),
      Search.FromPaper title author = .ok spec →
      ¬(spec.search_query ≠ "" ∧ spec.id_list ≠ "")) := by
  have base : ∀ (inp : SearchInput) (spec : Search), Search.init inp = .ok spec →
      ¬(spec.search_query ≠ "" ∧ spec.id_list ≠ "") := by
    intro inp spec h hboth
    rcases search_init_exclusive inp spec h with hq | hi
    · exact hboth.1 hq
    · exact hboth.2 hi
  exact ⟨base, fun subject => base _, fun title author => base _⟩

/-- Witness for C8 at a concrete successful build. -/
theorem C8_exclusive_population_witness :
    Search.init (.str "cs.CV") = .ok ⟨"cat:cs.CV", ""⟩ ∧
    ¬(("cat:cs.CV" : String) ≠ "" ∧ ("" : String) ≠ "") :=
  ⟨by rfl, C8_exclusive_population.1 (.str "cs.CV") ⟨"cat:cs.CV", ""⟩ (by rfl)⟩

/-- C9 counterexample: on the subject consisting of a paper identifier,
FromSubject builds a spec whose id_list is the generated all-prefixed
string and whose search_query is empty, so the claimed shape (query
populated, id_list left empty) fails. -/
theorem C9_digit_subject_counterexample :
    Search.FromSubject "2101.00001" = .ok ⟨"", "all:2101.00001"⟩ ∧
    ("all:2101.00001" : String) ≠ "" := by
  constructor
  · rfl
  · decide

/-- C9 amended: FromSubject splits the subject on single spaces, keeping
empty pieces, joins the pieces prefixed by all and a colon with the
separator +AND+, and then feeds that string back through the constructor
classification: the built spec carries it in search_query with id_list
empty unless the string contains a digits-dot-digits substring, in which
case it is stored in id_list and search_query is left empty (the category
branch is unreachable because the string starts with the three-letter run
all). -/
theorem C9_from_subject_amended (subject : String) :
    Search.FromSubject subject =
      (if is_paper_id (subjectQuery subject) then
        Except.ok ⟨"", subjectQuery subject⟩
      else
        Except.ok ⟨subjectQuery subject, ""⟩) := by
  obtain ⟨t, ht⟩ := subjectQuery_shape subject
  have hcat : is_category (subjectQuery subject) = false := by
    rw [ht]; exact is_category_all_colon t
  simp [Search.FromSubject, Search.init, hcat]

/-- C1: on a page made of a matching prefix, a first non-matching entry
and arbitrary later entries, the daily-fetch scan keeps exactly the
matching prefix in its original order and signals the boundary crossing,
independently of the later entries (short-circuit); and whenever such a
page is returned with a success status inside the pagination loop, the
loop stops after this page with only that prefix appended — the boundary
forces the remaining count to 0 so no further page is fetched. -/
theorem C1_date_window_short_circuit (target : String) (pre : List FeedEntry)
    (e : FeedEntry) (suf : List FeedEntry)
    (hpre : ∀ x ∈ pre, strContainsSub x.date target = true)
    (he : strContainsSub e.date target = false) :
    scanPage target (pre ++ e :: suf) = (pre, true) ∧
    (∀ (fetch : Int → Int → FetchResult) (rpi : Int) (articles : List FeedEntry)
      (n_left n_start : Int), 0 < n_left →
      (fetch n_start rpi).status = 200 →
      (fetch n_start rpi).entries = pre ++ e :: suf →
      queryLoop fetch rpi target articles n_left n_start = articles ++ pre) := by
  have hscan := scanPage_crossed target pre e suf hpre he
  refine ⟨hscan, ?_⟩
  intro fetch rpi articles n_left n_start h1 h2 h3
  rw [queryLoop_stepPage fetch rpi target articles n_left n_start h1 h2 (by simp [h3])]
  rw [h3]
  simp only [hscan]
  simp only [if_pos]
  exact queryLoop_nonpos fetch rpi target (articles ++ pre) 0 _ le_rfl

/-- Witness for C1: three entries match the target date, the fourth does
not, a fifth garbage entry follows; exactly the first three are kept and
the boundary flag is set. -/
theorem C1_date_window_short_circuit_witness :
    (∀ x ∈ ([⟨"2021-03-01T08:00:00Z", "a"⟩, ⟨"2021-03-01T07:00:00Z", "b"⟩,
        ⟨"2021-03-01T06:00:00Z", "c"⟩] : List FeedEntry),
      strContainsSub x.date "2021-03-01" = true) ∧
    scanPage "2021-03-01"
        ([⟨"2021-03-01T08:00:00Z", "a"⟩, ⟨"2021-03-01T07:00:00Z", "b"⟩,
          ⟨"2021-03-01T06:00:00Z", "c"⟩] ++
          ⟨"2021-02-28T22:00:00Z", "d"⟩ :: [⟨"not-a-date", "e"⟩]) =
      ([⟨"2021-03-01T08:00:00Z", "a"⟩, ⟨"2021-03-01T07:00:00Z", "b"⟩,
        ⟨"2021-03-01T06:00:00Z", "c"⟩], true) :=
  ⟨by decide,
   (C1_date_window_short_circuit "2021-03-01"
     [⟨"2021-03-01T08:00:00Z", "a"⟩, ⟨"2021-03-01T07:00:00Z", "b"⟩,
      ⟨"2021-03-01T06:00:00Z", "c"⟩]
     ⟨"2021-02-28T22:00:00Z", "d"⟩ [⟨"not-a-date", "e"⟩]
     (by decide) (by decide)).1⟩

/-- C2: the loop returns the accumulated articles when the remaining
count is at most 0 and when a successful page is empty; on a successful
nonempty page that does not cross the date boundary it recurses with the
cursor advanced and the remaining count decremented by the number of
entries actually returned — the requested page size plays no part in the
update; and in the concrete two-page scenario with page size 100 and
budget 200 where the first page returns 100 matching entries and the
second page is empty, the loop ends after the second page with exactly
the first-page matches and, being a total function, raises nothing. -/
theorem C2_pagination_accounting :
    (∀ (fetch : Int → Int → FetchResult) (rpi : Int) (target : String)
      (arts : List FeedEntry) (n_left n_start : Int), n_left ≤ 0 →
      queryLoop fetch rpi target arts n_left n_start = arts) ∧
    (∀ (fetch : Int → Int → FetchResult) (rpi : Int) (target : String)
      (arts : List FeedEntry) (n_left n_start : Int), 0 < n_left →
      (fetch n_start rpi).status = 200 → (fetch n_start rpi).entries = [] →
      queryLoop fetch rpi target arts n_left n_start = arts) ∧
    (∀ (fetch : Int → Int → FetchResult) (rpi : Int) (target : String)
      (arts : List FeedEntry) (n_left n_start : Int), 0 < n_left →
      (fetch n_start rpi).status = 200 → (fetch n_start rpi).entries ≠ [] →
      (scanPage target (fetch n_start rpi).entries).2 = false →
      queryLoop fetch rpi target arts n_left n_start =
        queryLoop fetch rpi target
          (arts ++ (scanPage target (fetch n_start rpi).entries).1)
          (n_left - (fetch n_start rpi).entries.length)
          (n_start + (fetch n_start rpi).entries.length)) ∧
    queryDailyPaper twoPageFetch 0 200 100 "2021-03-01" =
      List.replicate 100 sampleEntry := by
  refine ⟨queryLoop_nonpos, queryLoop_emptyPage, ?_, ?_⟩
  · intro fetch rpi target arts n_left n_start h1 h2 h3 h4
    rw [queryLoop_stepPage fetch rpi target arts n_left n_start h1 h2 h3, h4]
    simp
  · have hm : ∀ x ∈ List.replicate 100 sampleEntry,
        strContainsSub x.date "2021-03-01" = true := by
      intro x hx
      rw [List.eq_of_mem_replicate hx]
      decide
    have hscan := scanPage_all "2021-03-01" (List.replicate 100 sampleEntry) hm
    have hfetch0 : twoPageFetch 0 100 = ⟨200, List.replicate 100 sampleEntry⟩ := rfl
    unfold queryDailyPaper
    rw [queryLoop_stepPage twoPageFetch 100 "2021-03-01" [] 200 0 (by decide)
      (by rw [hfetch0]) (by rw [hfetch0]; simp)]
    rw [hfetch0]
    simp only [hscan, List.length_replicate, List.nil_append]
    norm_num
    exact queryLoop_emptyPage twoPageFetch 100 "2021-03-01"
      (List.replicate 100 sampleEntry) 100 100 (by norm_num) rfl rfl

/-- Witness for C2 at a concrete exhausted budget. -/
theorem C2_pagination_accounting_witness :
    queryLoop twoPageFetch 100 "2021-03-01" [] (-5) 3 = [] :=
  C2_pagination_accounting.1 twoPageFetch 100 "2021-03-01" [] (-5) 3 (by decide)

/-- C7: a fetch result with a non-success status makes the pagination
loop stop and return exactly the articles accumulated from the earlier
pages (possibly none); the embedded loop is a total function, so nothing
is raised on this path — the source only prints the status. -/
theorem C7_soft_status_failure (fetch : Int → Int → FetchResult) (rpi : Int)
    (target : String) (articles : List FeedEntry) (n_left n_start : Int)
    (h1 : 0 < n_left) (h2 : (fetch n_start rpi).status ≠ 200) :
    queryLoop fetch rpi target articles n_left n_start = articles :=
  queryLoop_badStatus fetch rpi target articles n_left n_start h1 h2

/-- Witness for C7: a first fetch failing with status 404 yields the
empty accumulation. -/
theorem C7_soft_status_failure_witness :
    queryLoop failingFetch 100 "2021-03-01" [] 200 0 = [] :=
  C7_soft_status_failure failingFetch 100 "2021-03-01" [] 200 0
    (by decide) (by decide)

end Arxiv
